import Mathlib

/-
Verification of the Compass PM work-item automation flows.

The browser / DOM-query capability is modelled as an environment that fixes
the outcome of every DOM primitive the flow performs (element queries,
waits, clicks, read-backs), each outcome being either a value or a raised
Python exception.  A computation is a pair of an `Except`-value (normal
return or escaped exception) and a trace of observable events (sub-flow
invocations and click attempts).  The flow functions below are direct
translations of:
  - src/src/compass_automation/utils/ui_helpers.py   (click_element, send_text, safe_wait, navigate_back_to_home, click_next_in_dialog)
  - src/src/compass_automation/flows/opcode_flows.py (select_opcode)
  - src/src/compass_automation/flows/mileage_flows.py (complete_mileage_dialog)
  - src/flows/complaints_flows.py                    (associate_existing_complaint and helpers, create_new_complaint)
  - src/flows/finalize_flow.py                       (finalize_workitem)
  - src/src/compass_automation/flows/work_item_flow.py (get_work_items, handle_pm_workitems, complete_pm_workitem and helpers)
  - src/src/compass_automation/utils/data_loader.py  (load_mvas)
-/

set_option maxRecDepth 8000

/-- Python exception classes relevant to the flows. -/
inductive Exc where
  | noSuchElement
  | timeoutExc
  | staleElement
  | assertErr
  | otherErr
deriving DecidableEq

deriving instance DecidableEq for Except

/-- Observable events: sub-flow invocation markers and element click attempts. -/
inductive Event where
  | locateAttempt
  | clickAttempt
  | resolverCalled
  | completeCalled
  | finalizeCalled
  | navHomeCalled
  | createComplaintCalled
  | tileClicked (id : Nat)
  | stepNext
  | stepMileage
  | stepOpcode
  | opTileClicked (id : Nat)
deriving DecidableEq

/-- A Python result dictionary: association list of string keys and values. -/
abbrev Dict : Type := List (String × String)

/-- `d.get(k)` on a Python dict: first matching key, `none` when absent. -/
def dget (d : Dict) (k : String) : Option String :=
  match d with
  | [] => none
  | (k2, v) :: rest => if k2 = k then some v else dget rest k

/-- A computation: final outcome (value or escaped exception) plus event trace. -/
abbrev M (α : Type) : Type := Except Exc α × List Event

def M.ret (a : α) : M α := (Except.ok a, [])

def M.bind (x : M α) (f : α → M β) : M β :=
  match x.1 with
  | Except.ok a => ((f a).1, x.2 ++ (f a).2)
  | Except.error e => (Except.error e, x.2)

def M.emit (e : Event) : M Unit := (Except.ok (), [e])

def M.throwE (e : Exc) : M α := (Except.error e, [])

def M.liftE (x : Except Exc α) : M α := (x, [])

/-- `try: x except Exception: h` — every exception class is caught. -/
def M.catchAll (x : M α) (h : Exc → M α) : M α :=
  match x.1 with
  | Except.ok _ => x
  | Except.error e => ((h e).1, x.2 ++ (h e).2)

/-- `try: x except C: h` — only exceptions satisfying `p` are caught. -/
def M.catchOnly (p : Exc → Bool) (x : M α) (h : Exc → M α) : M α :=
  match x.1 with
  | Except.ok _ => x
  | Except.error e => if p e then ((h e).1, x.2 ++ (h e).2) else x

/- ---------------- action primitives (utils/ui_helpers.py) ---------------- -/

/-- Outcomes of the two locate waits and two click attempts inside `click_element`. -/
structure ClickEnv where
  wait1 : Except Exc Unit
  click1 : Except Exc Unit
  wait2 : Except Exc Unit
  click2 : Except Exc Unit
deriving DecidableEq

/-- ui_helpers.click_element: locate and click with a single retry if stale;
`False` on timeout or any other exception. -/
def click_element (env : ClickEnv) : M Bool :=
  M.catchAll
    (M.bind (M.emit Event.locateAttempt) (fun _ =>
      M.bind (M.liftE env.wait1) (fun _ =>
        M.catchOnly (fun e => e == Exc.staleElement)
          (M.bind (M.emit Event.clickAttempt) (fun _ =>
            M.bind (M.liftE env.click1) (fun _ => M.ret true)))
          (fun _ =>
            M.bind (M.emit Event.locateAttempt) (fun _ =>
              M.bind (M.liftE env.wait2) (fun _ =>
                M.bind (M.emit Event.clickAttempt) (fun _ =>
                  M.bind (M.liftE env.click2) (fun _ => M.ret true))))))))
    (fun _ => M.ret false)

/-- Pure mirror of `click_element`'s boolean result. -/
def clickB (env : ClickEnv) : Bool :=
  match env.wait1 with
  | Except.error _ => false
  | Except.ok _ =>
    match env.click1 with
    | Except.ok _ => true
    | Except.error Exc.staleElement =>
      match env.wait2, env.click2 with
      | Except.ok _, Except.ok _ => true
      | _, _ => false
    | Except.error _ => false

/-- Pure mirror of `click_element`'s event trace. -/
def clickTr (env : ClickEnv) : List Event :=
  match env.wait1 with
  | Except.error _ => [Event.locateAttempt]
  | Except.ok _ =>
    match env.click1 with
    | Except.ok _ => [Event.locateAttempt, Event.clickAttempt]
    | Except.error Exc.staleElement =>
      [Event.locateAttempt, Event.clickAttempt, Event.locateAttempt] ++
        (match env.wait2 with
         | Except.error _ => []
         | Except.ok _ => [Event.clickAttempt])
    | Except.error _ => [Event.locateAttempt, Event.clickAttempt]

/-- Outcomes of the primitives inside `send_text`: the clickability wait, the
optional clear, the keystroke send, and the read-back of the field value. -/
structure SendEnv where
  locate : Except Exc Unit
  clearOp : Except Exc Unit
  sendKeys : Except Exc Unit
  readBack : Except Exc (Option String)
deriving DecidableEq

/-- ui_helpers.send_text: locate, optionally clear, type, then read the value
back and compare with the input; `False` on timeout, on exception while
typing, or on read-back mismatch. -/
def send_text (env : SendEnv) (text : String) (clear : Bool) : M Bool :=
  M.catchOnly (fun e => e == Exc.timeoutExc)
    (M.bind (M.liftE env.locate) (fun _ =>
      M.catchAll
        (M.bind (M.liftE (if clear then env.clearOp else Except.ok ())) (fun _ =>
          M.bind (M.liftE env.sendKeys) (fun _ =>
            M.bind (M.liftE env.readBack) (fun v =>
              if v = some text then M.ret true else M.ret false))))
        (fun _ => M.ret false)))
    (fun _ => M.ret false)

/-- The value a subsequent read of the field would observe (the read-back). -/
def readOf (env : SendEnv) : Option String :=
  match env.readBack with
  | Except.ok v => v
  | Except.error _ => none

/- ---------------- opcode stepper (flows/opcode_flows.py) ---------------- -/

/-- One opcode tile in the dialog: its (normalize-spaced) text label and the
outcomes of scrolling it into view and clicking it. -/
structure OpTile where
  id : Nat
  label : String
  scroll : Except Exc Unit
  click : Except Exc Unit
deriving DecidableEq

/-- The opcode dialog state: the tiles present in the DOM, and whether the
`find_elements` query itself raises. -/
structure OpcodeEnv where
  queryExc : Option Exc
  domTiles : List OpTile
deriving DecidableEq

/-- opcode_flows.select_opcode: the XPath keeps exactly the tiles whose label
equals `code_text`; zero matches give `opcode_not_found`, otherwise the first
match is scrolled into view and clicked. -/
def select_opcode (env : OpcodeEnv) (mva : String) (code_text : String) : M Dict :=
  M.bind (match env.queryExc with
          | some e => M.throwE e
          | none => M.ret (env.domTiles.filter (fun t => t.label = code_text)))
    (fun tiles =>
      match tiles with
      | [] => M.ret [("status", "failed"), ("reason", "opcode_not_found")]
      | t :: _ =>
        M.bind (M.liftE t.scroll) (fun _ =>
          M.bind (M.emit (Event.opTileClicked t.id)) (fun _ =>
            M.bind (M.liftE t.click) (fun _ =>
              M.ret [("status", "ok")]))))

/-- Pure mirror of `select_opcode`'s outcome. -/
def opR (env : OpcodeEnv) (code_text : String) : Except Exc Dict :=
  match env.queryExc with
  | some e => Except.error e
  | none =>
    match env.domTiles.filter (fun t => t.label = code_text) with
    | [] => Except.ok [("status", "failed"), ("reason", "opcode_not_found")]
    | t :: _ =>
      match t.scroll with
      | Except.error e => Except.error e
      | Except.ok _ =>
        match t.click with
        | Except.error e => Except.error e
        | Except.ok _ => Except.ok [("status", "ok")]

/-- Pure mirror of `select_opcode`'s event trace. -/
def opTr (env : OpcodeEnv) (code_text : String) : List Event :=
  match env.queryExc with
  | some _ => []
  | none =>
    match env.domTiles.filter (fun t => t.label = code_text) with
    | [] => []
    | t :: _ =>
      match t.scroll with
      | Except.error _ => []
      | Except.ok _ => [Event.opTileClicked t.id]

/- ---------------- mileage stepper (flows/mileage_flows.py) ---------------- -/

structure MileageEnv where
  nextClick : ClickEnv
deriving DecidableEq

/-- mileage_flows.complete_mileage_dialog: click Next; broad catch converts
any exception into `reason=exception`. -/
def complete_mileage_dialog (env : MileageEnv) (mva : String) : M Dict :=
  M.catchAll
    (M.bind (click_element env.nextClick) (fun b =>
      if b then M.ret [("status", "ok")]
      else M.ret [("status", "failed"), ("reason", "next_btn")]))
    (fun _ => M.ret [("status", "failed"), ("reason", "exception")])

/- ------- dialog Next button (ui_helpers.click_next_in_dialog, patched) ------- -/

/-- One candidate element found by `_find_next_button_candidates`: whether it
is displayed (with per-element exceptions folded into `displayed = false`),
its DOM identity, the net result of `_is_element_enabled` and of
`_click_element_safely` (both catch every exception and return a Bool). -/
structure NextCand where
  displayed : Bool
  id : Nat
  enabled : Bool
  clickOk : Bool
deriving DecidableEq

/-- `_deduplicate_elements`: drop non-displayed candidates and duplicates by id. -/
def dedupeGo : List NextCand → List Nat → List NextCand
  | [], _ => []
  | c :: rest, seen =>
    if c.displayed = false then dedupeGo rest seen
    else if c.id ∈ seen then dedupeGo rest seen
    else c :: dedupeGo rest (c.id :: seen)

def dedupeNext (cs : List NextCand) : List NextCand := dedupeGo cs []

/-- The polling loop state: the candidate scan returned by each loop
iteration (the `find_elements` calls may raise), and the final post-timeout
scan. The timeout bound becomes the length of `polls`. -/
structure NextEnv where
  polls : List (Except Exc (List NextCand))
  finalScan : Except Exc (List NextCand)
deriving DecidableEq

/-- One pass of the `while time.time() < end` loop plus the final scan. -/
def nextLoop (finalScan : Except Exc (List NextCand)) :
    List (Except Exc (List NextCand)) → M Bool
  | [] => M.bind (M.liftE finalScan) (fun _ => M.ret false)
  | p :: rest =>
    M.bind (M.liftE p) (fun raw =>
      match (dedupeNext raw).find? (fun c => c.enabled) with
      | some best => if best.clickOk then M.ret true else nextLoop finalScan rest
      | none => nextLoop finalScan rest)

/-- ui_helpers.click_next_in_dialog (patched version): poll for an enabled
Next-button candidate, click the first enabled one; `False` after the bounded
wait; exceptions from the candidate queries escape. -/
def click_next_in_dialog (env : NextEnv) : M Bool :=
  nextLoop env.finalScan env.polls

/-- Pure mirror of `click_next_in_dialog`'s outcome. -/
def nextB (finalScan : Except Exc (List NextCand)) :
    List (Except Exc (List NextCand)) → Except Exc Bool
  | [] =>
    (match finalScan with
     | Except.ok _ => Except.ok false
     | Except.error e => Except.error e)
  | p :: rest =>
    match p with
    | Except.error e => Except.error e
    | Except.ok raw =>
      match (dedupeNext raw).find? (fun c => c.enabled) with
      | some best => if best.clickOk then Except.ok true else nextB finalScan rest
      | none => nextB finalScan rest

/- ---------------- complaint resolver (flows/complaints_flows.py) ---------------- -/

/-- One complaint tile: its DOM identity, its text, and the outcome of
clicking it. -/
structure Tile where
  id : Nat
  text : String
  click : Except Exc Unit
deriving DecidableEq

/-- Leading-match test on character lists. -/
def chLE : List Char → List Char → Bool
  | [], _ => true
  | _ :: _, [] => false
  | a :: as, b :: bs => a = b && chLE as bs

/-- Contiguous-sublist test on character lists. -/
def chSub (sub : List Char) : List Char → Bool
  | [] => sub.isEmpty
  | c :: cs => chLE sub (c :: cs) || chSub sub cs

/-- Python's `sub in s` substring containment. -/
def strContains (s : String) (sub : String) : Bool := chSub sub.data s.data

/-- The tile filter of `_find_pm_complaint_tiles`:
`any(label in t.text for label in ["PM", "PM Hard Hold - PM"])`. -/
def pmFilter (tiles : List Tile) : List Tile :=
  tiles.filter (fun t =>
    (["PM", "PM Hard Hold - PM"] : List String).any (fun l => strContains t.text l))

/-- The resolver's environment: the complaint-tile query, then the dialog-Next,
mileage-dialog, and opcode-dialog steps. -/
structure AssocEnv where
  tilesQuery : Except Exc (List Tile)
  next : NextEnv
  mileage : MileageEnv
  opcode : OpcodeEnv
deriving DecidableEq

/-- complaints_flows._find_pm_complaint_tiles: query and filter the tiles,
with the early-return dictionary of the Python tuple result. -/
def find_pm_complaint_tiles (env : AssocEnv) (mva : String) :
    M (Option (List Tile) × Option (List Tile) × Option Dict) :=
  M.catchAll
    (M.bind (M.liftE env.tilesQuery) (fun tiles =>
      if tiles.isEmpty then
        M.ret (none, none, some [("status", "skipped_no_complaint"), ("mva", mva)])
      else
        match pmFilter tiles with
        | [] => M.ret (some tiles, none, some [("status", "skipped_no_complaint"), ("mva", mva)])
        | pm => M.ret (some tiles, some pm, none)))
    (fun _ => M.ret (none, none, some [("status", "failed"), ("reason", "tile_search"), ("mva", mva)]))

/-- complaints_flows._select_complaint_tile: click the tile; any exception is
converted to `reason=tile_click`. -/
def select_complaint_tile (t : Tile) (mva : String) : M (Option Dict) :=
  M.catchAll
    (M.bind (M.emit (Event.tileClicked t.id)) (fun _ =>
      M.bind (M.liftE t.click) (fun _ => M.ret none)))
    (fun _ => M.ret (some [("status", "failed"), ("reason", "tile_click"), ("mva", mva)]))

/-- complaints_flows._execute_complaint_dialog_step. -/
def execute_complaint_dialog_step (env : NextEnv) (mva : String) : M (Option Dict) :=
  M.bind (M.emit Event.stepNext) (fun _ =>
    M.bind (click_next_in_dialog env) (fun b =>
      if b then M.ret none
      else M.ret (some [("status", "failed"), ("reason", "complaint_next"), ("mva", mva)])))

/-- complaints_flows._execute_mileage_dialog_step. -/
def execute_mileage_dialog_step (env : MileageEnv) (mva : String) : M (Option Dict) :=
  M.bind (M.emit Event.stepMileage) (fun _ =>
    M.bind (complete_mileage_dialog env mva) (fun res =>
      if dget res ("status") ≠ some "ok" then
        M.ret (some [("status", "failed"), ("reason", "mileage"), ("mva", mva)])
      else M.ret none))

/-- complaints_flows._execute_opcode_dialog_step. -/
def execute_opcode_dialog_step (env : OpcodeEnv) (mva : String) : M (Option Dict) :=
  M.bind (M.emit Event.stepOpcode) (fun _ =>
    M.bind (select_opcode env mva ("PM Gas")) (fun res =>
      if dget res ("status") ≠ some "ok" then
        M.ret (some [("status", "failed"), ("reason", "opcode"), ("mva", mva)])
      else M.ret none))

/-- complaints_flows._create_failure_result. -/
def create_failure_result (reason : String) (mva : String) : Dict :=
  [("status", "failed"), ("reason", reason), ("mva", mva)]

/-- complaints_flows.associate_existing_complaint: find and filter PM tiles,
click the first PM tile, then run the three dialog steps in order; the broad
top-level catch converts any escaping exception into `reason=exception`. -/
def associate_existing_complaint (env : AssocEnv) (mva : String) : M Dict :=
  M.bind (M.emit Event.resolverCalled) (fun _ =>
    M.catchAll
      (M.bind (find_pm_complaint_tiles env mva) (fun r =>
        match r.2.2 with
        | some early => M.ret early
        | none =>
          match r.2.1 with
          | some (tile :: _) =>
            M.bind (select_complaint_tile tile mva) (fun sel =>
              match sel with
              | some err => M.ret err
              | none =>
                M.bind (execute_complaint_dialog_step env.next mva) (fun s1 =>
                  match s1 with
                  | some err => M.ret err
                  | none =>
                    M.bind (execute_mileage_dialog_step env.mileage mva) (fun s2 =>
                      match s2 with
                      | some err => M.ret err
                      | none =>
                        M.bind (execute_opcode_dialog_step env.opcode mva) (fun s3 =>
                          match s3 with
                          | some err => M.ret err
                          | none => M.ret [("status", "associated"), ("mva", mva)]))))
          | _ => M.throwE Exc.otherErr))
      (fun _ => M.ret (create_failure_result ("exception") mva)))

/-- complaints_flows.create_new_complaint: Add/Create New Complaint →
Drivability Yes → type PM → Submit, short-circuiting on the first failed
click; broad catch converts exceptions into `reason=exception`. -/
def create_new_complaint (env1 env2 envYes envPM envSubmit : ClickEnv) (mva : String) : M Dict :=
  M.bind (M.emit Event.createComplaintCalled) (fun _ =>
    M.catchAll
      (M.bind (click_element env1) (fun b1 =>
        M.bind (if b1 then M.ret true else click_element env2) (fun b =>
          if b = false then M.ret [("status", "failed"), ("reason", "add_btn")]
          else
            M.bind (click_element envYes) (fun y =>
              if y = false then M.ret [("status", "failed"), ("reason", "drivability")]
              else
                M.bind (click_element envPM) (fun p =>
                  if p = false then M.ret [("status", "failed"), ("reason", "complaint_type"), ("mva", mva)]
                  else
                    M.bind (click_element envSubmit) (fun s =>
                      if s = false then M.ret [("status", "failed"), ("reason", "submit_info"), ("mva", mva)]
                      else M.ret [("status", "created")]))))))
      (fun _ => M.ret [("status", "failed"), ("reason", "exception")]))

/- ------------- navigate_back_to_home (utils/ui_helpers.py) ------------- -/

/-- One iteration of the back-arrow loop: the camera-button query, the
back-arrow query, and the click on the first arrow. -/
structure NavIter where
  camera : Except Exc (List Unit)
  arrows : Except Exc (List Unit)
  arrowClick : Except Exc Unit

/-- The navigation environment: iteration outcomes, indexed by loop counter. -/
structure NavEnv where
  iters : Nat → NavIter

/-- The `for i in range(max_clicks)` loop of navigate_back_to_home.
The camera query catches only staleness; the arrow block catches everything. -/
def navGo (env : NavEnv) (i : Nat) : Nat → M Bool
  | 0 => M.ret false
  | fuel + 1 =>
    let arrowsPhase : M Bool :=
      match (env.iters i).arrows with
      | Except.ok [] => M.ret false
      | Except.ok (_ :: _) =>
        match (env.iters i).arrowClick with
        | Except.ok _ => navGo env (i + 1) fuel
        | Except.error _ => M.ret false
      | Except.error _ => M.ret false
    match (env.iters i).camera with
    | Except.ok l => if l.isEmpty then arrowsPhase else M.ret true
    | Except.error Exc.staleElement => arrowsPhase
    | Except.error e => M.throwE e

/-- ui_helpers.navigate_back_to_home with max_clicks = 5. -/
def navigate_back_to_home (env : NavEnv) : M Bool :=
  M.bind (M.emit Event.navHomeCalled) (fun _ => navGo env 0 5)

/-- Pure mirror of the loop outcome of `navigate_back_to_home`. -/
def navB (env : NavEnv) (i : Nat) : Nat → Except Exc Bool
  | 0 => Except.ok false
  | fuel + 1 =>
    let arrowsPhase : Except Exc Bool :=
      match (env.iters i).arrows with
      | Except.ok [] => Except.ok false
      | Except.ok (_ :: _) =>
        match (env.iters i).arrowClick with
        | Except.ok _ => navB env (i + 1) fuel
        | Except.error _ => Except.ok false
      | Except.error _ => Except.ok false
    match (env.iters i).camera with
    | Except.ok l => if l.isEmpty then arrowsPhase else Except.ok true
    | Except.error Exc.staleElement => arrowsPhase
    | Except.error e => Except.error e

/- ------------- work-item completion (flows/work_item_flow.py) ------------- -/

/-- The completion dialog's eight primitive outcomes, in source order:
dialog visibility wait, textarea wait, textarea click / clear / send_keys,
Complete-button wait, its click, and the dialog-close wait. -/
structure DialogEnv where
  waitDialog : Except Exc Unit
  waitTextarea : Except Exc Unit
  textClick : Except Exc Unit
  textClear : Except Exc Unit
  textSend : Except Exc Unit
  waitCompleteBtn : Except Exc Unit
  btnClick : Except Exc Unit
  waitClose : Except Exc Unit
deriving DecidableEq

/-- ui_helpers.safe_wait: a timeout becomes a raised AssertionError; every
other outcome passes through. -/
def safe_wait (w : Except Exc Unit) : M Unit :=
  M.catchOnly (fun e => e == Exc.timeoutExc) (M.liftE w) (fun _ => M.throwE Exc.assertErr)

/-- work_item_flow.complete_work_item_dialog: the straight-line dialog fill;
the broad catch yields `reason=dialog_exception`. -/
def complete_work_item_dialog (env : DialogEnv) : M Dict :=
  M.catchAll
    (M.bind (safe_wait env.waitDialog) (fun _ =>
      M.bind (safe_wait env.waitTextarea) (fun _ =>
        M.bind (M.liftE env.textClick) (fun _ =>
          M.bind (M.liftE env.textClear) (fun _ =>
            M.bind (M.liftE env.textSend) (fun _ =>
              M.bind (safe_wait env.waitCompleteBtn) (fun _ =>
                M.bind (M.liftE env.btnClick) (fun _ =>
                  M.bind (safe_wait env.waitClose) (fun _ =>
                    M.ret [("status", "ok")])))))))))
    (fun _ => M.ret [("status", "failed"), ("reason", "dialog_exception")])

/-- Environment of the completion procedure: the card query + click, the two
Mark-Complete click fallbacks, and the dialog. -/
structure CompleteEnv where
  cardFind : Except Exc Unit
  cardClick : Except Exc Unit
  markClick1 : ClickEnv
  markClick2 : ClickEnv
  dialog : DialogEnv
deriving DecidableEq

/-- work_item_flow.open_pm_workitem_card. -/
def open_pm_workitem_card (env : CompleteEnv) (mva : String) : M Dict :=
  M.catchAll
    (M.bind (M.liftE env.cardFind) (fun _ =>
      M.bind (M.liftE env.cardClick) (fun _ =>
        M.ret [("status", "ok"), ("reason", "card_opened"), ("mva", mva)])))
    (fun _ => M.ret [("status", "failed"), ("reason", "open_pm_card"), ("mva", mva)])

/-- work_item_flow.mark_complete_pm_workitem. -/
def mark_complete_pm_workitem (env : CompleteEnv) (mva : String) : M Dict :=
  M.bind (click_element env.markClick1) (fun b1 =>
    M.bind (if b1 then M.ret true else click_element env.markClick2) (fun b =>
      if b = false then
        M.ret [("status", "failed"), ("reason", "mark_complete_button"), ("mva", mva)]
      else
        M.bind (complete_work_item_dialog env.dialog) (fun res =>
          if dget res ("status") = some "ok" then
            M.ret [("status", "ok"), ("reason", "dialog_complete"), ("mva", mva)]
          else
            M.ret [("status", "failed"),
                   ("reason", (dget res ("reason")).getD ("dialog_failed")), ("mva", mva)])))

/-- work_item_flow.complete_pm_workitem. -/
def complete_pm_workitem (env : CompleteEnv) (mva : String) : M Dict :=
  M.bind (M.emit Event.completeCalled) (fun _ =>
    M.bind (open_pm_workitem_card env mva) (fun r1 =>
      if dget r1 ("status") ≠ some "ok" then M.ret r1
      else
        M.bind (mark_complete_pm_workitem env mva) (fun r2 =>
          if dget r2 ("status") = some "ok" then
            M.ret [("status", "ok"), ("reason", "completed_open_pm"), ("mva", mva)]
          else
            M.ret [("status", "failed"),
                   ("reason", (dget r2 ("reason")).getD ("mark_complete")), ("mva", mva)])))

/- ---------------- finalize (flows/finalize_flow.py) ---------------- -/

/-- finalize_workitem's environment: the Create-Work-Item click, the
tile re-query, the completion procedure, and the recovery navigation invoked
by the exception handler. -/
structure FinalizeEnv where
  createClick : ClickEnv
  tilesQuery : Except Exc (List Tile)
  comp : CompleteEnv
  nav : NavEnv

/-- finalize_flow.finalize_workitem: Create Work Item → verify tiles exist →
complete; the broad catch navigates home and yields `reason=exception`. -/
def finalize_workitem (env : FinalizeEnv) (mva : String) : M Dict :=
  M.bind (M.emit Event.finalizeCalled) (fun _ =>
    M.catchAll
      (M.bind (click_element env.createClick) (fun b =>
        if b = false then M.ret [("status", "failed"), ("reason", "create_btn"), ("mva", mva)]
        else
          M.bind (M.liftE env.tilesQuery) (fun tiles =>
            if tiles.isEmpty then
              M.ret [("status", "failed"), ("reason", "no_tiles"), ("mva", mva)]
            else
              M.bind (complete_pm_workitem env.comp mva) (fun res =>
                if dget res ("status") ≠ some "ok" then
                  M.ret [("status", "failed"), ("reason", "complete"), ("mva", mva)]
                else M.ret [("status", "closed"), ("mva", mva)]))))
      (fun _ =>
        M.bind (navigate_back_to_home env.nav) (fun _ =>
          M.ret [("status", "failed"), ("reason", "exception"), ("mva", mva)])))

/- ------------- flow controller (flows/work_item_flow.py) ------------- -/

/-- The controller's environment: the open-PM-work-item query, the
Add-Work-Item click, and the environments of the sub-flows it may invoke. -/
structure HandleEnv where
  workItems : Except Exc (List Tile)
  addClick : ClickEnv
  assoc : AssocEnv
  fin : FinalizeEnv
  nav : NavEnv
  comp : CompleteEnv

/-- work_item_flow.get_work_items: only NoSuchElementException is caught
(converted to the empty list); any other exception escapes. -/
def get_work_items (env : HandleEnv) (mva : String) : M (List Tile) :=
  M.catchOnly (fun e => e == Exc.noSuchElement)
    (M.liftE env.workItems)
    (fun _ => M.ret [])

/-- work_item_flow.handle_pm_workitems: complete an existing open PM item if
one exists; otherwise Add Work Item → complaint resolver → finalize on
`associated`, navigate home and pass through on `skipped_no_complaint`,
pass through otherwise; `add_btn` failure when the button cannot be clicked. -/
def handle_pm_workitems (env : HandleEnv) (mva : String) : M Dict :=
  M.bind (get_work_items env mva) (fun items =>
    if items.isEmpty = false then
      complete_pm_workitem env.comp mva
    else
      M.bind (click_element env.addClick) (fun b =>
        if b then
          M.bind (associate_existing_complaint env.assoc mva) (fun res =>
            if dget res ("status") = some "associated" then
              finalize_workitem env.fin mva
            else if dget res ("status") = some "skipped_no_complaint" then
              M.bind (navigate_back_to_home env.nav) (fun _ => M.ret res)
            else M.ret res)
        else M.ret [("status", "failed"), ("reason", "add_btn"), ("mva", mva)]))

/- ---------------- input loader (utils/data_loader.py) ---------------- -/

/-- Python's str.strip of leading whitespace. -/
def dropSpace : List Char → List Char
  | [] => []
  | c :: cs => if c.isWhitespace then dropSpace cs else c :: cs

/-- Python's str.strip: remove surrounding whitespace. -/
def pyStrip (s : String) : String :=
  String.mk ((dropSpace ((dropSpace s.data).reverse)).reverse)

/-- Python's s.startswith of a hash mark. -/
def pyStartsHash (s : String) : Bool :=
  match s.data with
  | [] => false
  | c :: _ => c = '#'

/-- data_loader.load_mvas on the rows produced by csv.reader: keep the first
field of every nonempty row whose first field does not start with '#',
stripped of surrounding whitespace. -/
def load_mvas (rows : List (List String)) : List String :=
  match rows with
  | [] => []
  | row :: rest =>
    match row with
    | [] => load_mvas rest
    | f :: _ =>
      if pyStartsHash f then load_mvas rest
      else pyStrip f :: load_mvas rest

/- ---------------- pure mirrors of the flow outcomes ---------------- -/

/-- Pure mirror of `complete_mileage_dialog`'s result. -/
def mileD (env : MileageEnv) : Dict :=
  if clickB env.nextClick then [("status", "ok")]
  else [("status", "failed"), ("reason", "next_btn")]

/-- All eight completion-dialog primitives succeed. -/
def dlgOk (d : DialogEnv) : Bool :=
  d.waitDialog == Except.ok () && d.waitTextarea == Except.ok () &&
  d.textClick == Except.ok () && d.textClear == Except.ok () &&
  d.textSend == Except.ok () && d.waitCompleteBtn == Except.ok () &&
  d.btnClick == Except.ok () && d.waitClose == Except.ok ()

/-- Pure mirror of `complete_work_item_dialog`'s result. -/
def dlgD (d : DialogEnv) : Dict :=
  if dlgOk d then [("status", "ok")]
  else [("status", "failed"), ("reason", "dialog_exception")]

/-- The work-item card was found and clicked. -/
def cardOk (env : CompleteEnv) : Bool :=
  env.cardFind == Except.ok () && env.cardClick == Except.ok ()

/-- Pure mirror of `open_pm_workitem_card`'s result. -/
def ocD (env : CompleteEnv) (mva : String) : Dict :=
  if cardOk env then [("status", "ok"), ("reason", "card_opened"), ("mva", mva)]
  else [("status", "failed"), ("reason", "open_pm_card"), ("mva", mva)]

/-- Pure mirror of `mark_complete_pm_workitem`'s result. -/
def markD (env : CompleteEnv) (mva : String) : Dict :=
  if clickB env.markClick1 || clickB env.markClick2 then
    (if dlgOk env.dialog then [("status", "ok"), ("reason", "dialog_complete"), ("mva", mva)]
     else [("status", "failed"), ("reason", "dialog_exception"), ("mva", mva)])
  else [("status", "failed"), ("reason", "mark_complete_button"), ("mva", mva)]

/-- Pure mirror of `mark_complete_pm_workitem`'s trace. -/
def markTr (env : CompleteEnv) : List Event :=
  clickTr env.markClick1 ++ (if clickB env.markClick1 then [] else clickTr env.markClick2)

/-- Pure mirror of `complete_pm_workitem`'s result. -/
def cpD (env : CompleteEnv) (mva : String) : Dict :=
  if cardOk env then
    (if clickB env.markClick1 || clickB env.markClick2 then
      (if dlgOk env.dialog then
        [("status", "ok"), ("reason", "completed_open_pm"), ("mva", mva)]
       else [("status", "failed"), ("reason", "dialog_exception"), ("mva", mva)])
     else [("status", "failed"), ("reason", "mark_complete_button"), ("mva", mva)])
  else [("status", "failed"), ("reason", "open_pm_card"), ("mva", mva)]

/-- Pure mirror of `complete_pm_workitem`'s trace. -/
def cpTr (env : CompleteEnv) : List Event :=
  Event.completeCalled :: (if cardOk env then markTr env else [])

/-- Pure mirror of `associate_existing_complaint`'s result (always a returned
dictionary: the top-level catch swallows every exception). -/
def assocR (env : AssocEnv) (mva : String) : Dict :=
  match env.tilesQuery with
  | Except.error _ => [("status", "failed"), ("reason", "tile_search"), ("mva", mva)]
  | Except.ok tiles =>
    if tiles.isEmpty then [("status", "skipped_no_complaint"), ("mva", mva)]
    else
      match pmFilter tiles with
      | [] => [("status", "skipped_no_complaint"), ("mva", mva)]
      | t :: _ =>
        match t.click with
        | Except.error _ => [("status", "failed"), ("reason", "tile_click"), ("mva", mva)]
        | Except.ok _ =>
          match nextB env.next.finalScan env.next.polls with
          | Except.error _ => [("status", "failed"), ("reason", "exception"), ("mva", mva)]
          | Except.ok false => [("status", "failed"), ("reason", "complaint_next"), ("mva", mva)]
          | Except.ok true =>
            if clickB env.mileage.nextClick = false then
              [("status", "failed"), ("reason", "mileage"), ("mva", mva)]
            else
              match opR env.opcode ("PM Gas") with
              | Except.error _ => [("status", "failed"), ("reason", "exception"), ("mva", mva)]
              | Except.ok r =>
                if dget r ("status") = some "ok" then [("status", "associated"), ("mva", mva)]
                else [("status", "failed"), ("reason", "opcode"), ("mva", mva)]

/-- Pure mirror of `associate_existing_complaint`'s trace. -/
def assocTr (env : AssocEnv) : List Event :=
  Event.resolverCalled ::
  (match env.tilesQuery with
   | Except.error _ => []
   | Except.ok tiles =>
     if tiles.isEmpty then []
     else
       match pmFilter tiles with
       | [] => []
       | t :: _ =>
         Event.tileClicked t.id ::
         (match t.click with
          | Except.error _ => []
          | Except.ok _ =>
            Event.stepNext ::
            (match nextB env.next.finalScan env.next.polls with
             | Except.error _ => []
             | Except.ok false => []
             | Except.ok true =>
               Event.stepMileage :: clickTr env.mileage.nextClick ++
                 (if clickB env.mileage.nextClick = false then []
                  else Event.stepOpcode :: opTr env.opcode ("PM Gas")))))

/-- Pure mirror of `finalize_workitem`'s outcome. -/
def finR (env : FinalizeEnv) (mva : String) : Except Exc Dict :=
  if clickB env.createClick = false then
    Except.ok [("status", "failed"), ("reason", "create_btn"), ("mva", mva)]
  else
    match env.tilesQuery with
    | Except.error _ =>
      (match navB env.nav 0 5 with
       | Except.error e => Except.error e
       | Except.ok _ => Except.ok [("status", "failed"), ("reason", "exception"), ("mva", mva)])
    | Except.ok tiles =>
      if tiles.isEmpty then Except.ok [("status", "failed"), ("reason", "no_tiles"), ("mva", mva)]
      else if dget (cpD env.comp mva) ("status") = some "ok" then
        Except.ok [("status", "closed"), ("mva", mva)]
      else Except.ok [("status", "failed"), ("reason", "complete"), ("mva", mva)]

/-- Pure mirror of `finalize_workitem`'s trace. -/
def finTr (env : FinalizeEnv) : List Event :=
  Event.finalizeCalled :: clickTr env.createClick ++
    (if clickB env.createClick = false then []
     else
       match env.tilesQuery with
       | Except.error _ => [Event.navHomeCalled]
       | Except.ok tiles => if tiles.isEmpty then [] else cpTr env.comp)

/-- Pure mirror of the no-open-item branch of `handle_pm_workitems`. -/
def handleCore (env : HandleEnv) (mva : String) : Except Exc Dict :=
  if clickB env.addClick = false then
    Except.ok [("status", "failed"), ("reason", "add_btn"), ("mva", mva)]
  else if dget (assocR env.assoc mva) ("status") = some "associated" then
    finR env.fin mva
  else if dget (assocR env.assoc mva) ("status") = some "skipped_no_complaint" then
    (match navB env.nav 0 5 with
     | Except.error e => Except.error e
     | Except.ok _ => Except.ok (assocR env.assoc mva))
  else Except.ok (assocR env.assoc mva)

/-- Pure mirror of `handle_pm_workitems`'s outcome. -/
def handleR (env : HandleEnv) (mva : String) : Except Exc Dict :=
  match env.workItems with
  | Except.error e =>
    if e == Exc.noSuchElement then handleCore env mva else Except.error e
  | Except.ok items =>
    if items.isEmpty then handleCore env mva else Except.ok (cpD env.comp mva)

/-- Pure mirror of the no-open-item branch trace of `handle_pm_workitems`. -/
def handleCoreTr (env : HandleEnv) (mva : String) : List Event :=
  clickTr env.addClick ++
    (if clickB env.addClick = false then []
     else
       assocTr env.assoc ++
         (if dget (assocR env.assoc mva) ("status") = some "associated" then finTr env.fin
          else if dget (assocR env.assoc mva) ("status") = some "skipped_no_complaint" then
            [Event.navHomeCalled]
          else []))

/-- Pure mirror of `handle_pm_workitems`'s trace. -/
def handleTr (env : HandleEnv) (mva : String) : List Event :=
  match env.workItems with
  | Except.error e =>
    if e == Exc.noSuchElement then handleCoreTr env mva else []
  | Except.ok items =>
    if items.isEmpty then handleCoreTr env mva else cpTr env.comp

/-- The dialog-step markers of the resolver. -/
def isStepEvt : Event → Bool
  | Event.stepNext => true
  | Event.stepMileage => true
  | Event.stepOpcode => true
  | _ => false

/- ---------------- concrete environments for witnesses ---------------- -/

/-- A click whose locate and click both succeed. -/
def okClick : ClickEnv := ⟨Except.ok (), Except.ok (), Except.ok (), Except.ok ()⟩

/-- A click whose locate wait times out (click fails, returns false). -/
def badClick : ClickEnv := ⟨Except.error Exc.timeoutExc, Except.ok (), Except.ok (), Except.ok ()⟩

/-- A Next-button poll that immediately finds one displayed, enabled,
clickable candidate. -/
def okNext : NextEnv := ⟨[Except.ok [⟨true, 1, true, true⟩]], Except.ok []⟩

def okMileage : MileageEnv := ⟨okClick⟩

/-- An opcode dialog containing exactly one tile labelled PM Gas. -/
def okOpcodeEnv : OpcodeEnv := ⟨none, [⟨1, "PM Gas", Except.ok (), Except.ok ()⟩]⟩

/-- A navigation environment whose camera button is visible at once. -/
def okNav : NavEnv := ⟨fun _ => ⟨Except.ok [()], Except.ok [], Except.ok ()⟩⟩

def okDialog : DialogEnv :=
  ⟨Except.ok (), Except.ok (), Except.ok (), Except.ok (),
   Except.ok (), Except.ok (), Except.ok (), Except.ok ()⟩

def okComplete : CompleteEnv := ⟨Except.ok (), Except.ok (), okClick, okClick, okDialog⟩

/-- A PM complaint tile whose click succeeds. -/
def okTile : Tile := ⟨1, "PM - PM", Except.ok ()⟩

/-- A resolver environment with zero complaint tiles. -/
def emptyAssoc : AssocEnv := ⟨Except.ok [], okNext, okMileage, okOpcodeEnv⟩

/-- A resolver environment with one PM tile and all steps succeeding. -/
def okAssoc : AssocEnv := ⟨Except.ok [okTile], okNext, okMileage, okOpcodeEnv⟩

/-- A resolver environment whose tile query raises. -/
def raiseAssoc : AssocEnv := ⟨Except.error Exc.otherErr, okNext, okMileage, okOpcodeEnv⟩

def okFinalize : FinalizeEnv := ⟨okClick, Except.ok [okTile], okComplete, okNav⟩

/-- A text field whose locate, clear, and type succeed and whose read-back
returns exactly the typed text A1. -/
def sendEnvW : SendEnv :=
  ⟨Except.ok (), Except.ok (), Except.ok (), Except.ok (some "A1")⟩

/-- Controller environment: no open work items, Add Work Item clickable,
zero complaint tiles. -/
def envNoTiles : HandleEnv := ⟨Except.ok [], okClick, emptyAssoc, okFinalize, okNav, okComplete⟩

/-- Controller environment whose work-item query raises a WebDriver error. -/
def envQueryRaises : HandleEnv :=
  ⟨Except.error Exc.otherErr, okClick, emptyAssoc, okFinalize, okNav, okComplete⟩

/-- Controller environment with one open PM work item. -/
def envOpenItem : HandleEnv :=
  ⟨Except.ok [okTile], okClick, okAssoc, okFinalize, okNav, okComplete⟩

/-- Controller environment with no open work item and one PM complaint tile,
with every sub-step succeeding. -/
def envAssociate : HandleEnv := ⟨Except.ok [], okClick, okAssoc, okFinalize, okNav, okComplete⟩

/- ---------------- equivalence of flows with their mirrors ---------------- -/

/-- `click_element` always returns a boolean and produces the mirrored
result and trace. -/
theorem click_eq (env : ClickEnv) :
    click_element env = (Except.ok (clickB env), clickTr env) := by
  rcases env with ⟨w1, c1, w2, c2⟩
  cases w1 with
  | error e1 => rfl
  | ok u1 =>
    cases c1 with
    | ok u2 => rfl
    | error e2 =>
      cases e2 with
      | staleElement =>
        cases w2 with
        | error e3 => rfl
        | ok u3 => cases c2 with
          | ok u4 => rfl
          | error e4 => rfl
      | noSuchElement => rfl
      | timeoutExc => rfl
      | assertErr => rfl
      | otherErr => rfl

/-- The dialog-Next polling loop emits no events and returns the mirrored
outcome. -/
theorem nextLoop_eq (fin : Except Exc (List NextCand))
    (ps : List (Except Exc (List NextCand))) :
    nextLoop fin ps = (nextB fin ps, []) := by
  induction ps with
  | nil => cases fin with
    | error e => rfl
    | ok l => rfl
  | cons p rest ih =>
    cases p with
    | error e => rfl
    | ok raw =>
      show nextLoop fin (Except.ok raw :: rest) = _
      simp only [nextLoop, nextB, M.bind, M.liftE]
      cases h : (dedupeNext raw).find? (fun c => c.enabled) with
      | none => simpa [h] using ih
      | some best =>
        cases hb : best.clickOk
        · simpa [h, hb] using ih
        · simp [h, hb, M.ret]

theorem click_next_eq (env : NextEnv) :
    click_next_in_dialog env = (nextB env.finalScan env.polls, []) :=
  nextLoop_eq env.finalScan env.polls

/-- The back-navigation loop emits no events and returns the mirrored
outcome. -/
theorem navGo_eq (env : NavEnv) :
    ∀ fuel i, navGo env i fuel = (navB env i fuel, []) := by
  intro fuel
  induction fuel with
  | zero => intro i; rfl
  | succ n ih =>
    intro i
    simp only [navGo, navB]
    cases hc : (env.iters i).camera with
    | ok l =>
      cases l with
      | nil =>
        cases ha : (env.iters i).arrows with
        | ok al =>
          cases al with
          | nil => rfl
          | cons a as =>
            cases hk : (env.iters i).arrowClick with
            | ok u => exact ih (i + 1)
            | error e3 => rfl
        | error e2 => rfl
      | cons x xs => rfl
    | error e =>
      cases e with
      | staleElement =>
        cases ha : (env.iters i).arrows with
        | ok al =>
          cases al with
          | nil => rfl
          | cons a as =>
            cases hk : (env.iters i).arrowClick with
            | ok u => exact ih (i + 1)
            | error e3 => rfl
        | error e2 => rfl
      | noSuchElement => rfl
      | timeoutExc => rfl
      | assertErr => rfl
      | otherErr => rfl

theorem nav_eq (env : NavEnv) :
    navigate_back_to_home env = ((navB env 0 5), [Event.navHomeCalled]) := by
  show M.bind (M.emit Event.navHomeCalled) (fun _ => navGo env 0 5) = _
  rw [navGo_eq env 5 0]
  rfl

/-- The completion dialog emits no events, never raises, and returns the
mirrored dictionary. -/
theorem dialog_eq (d : DialogEnv) :
    complete_work_item_dialog d = (Except.ok (dlgD d), []) := by
  rcases d with ⟨w1, w2, t1, t2, t3, w3, b1, w4⟩
  cases w1 with
  | error e => cases e <;> rfl
  | ok u1 =>
    cases w2 with
    | error e => cases e <;> rfl
    | ok u2 =>
      cases t1 with
      | error e => cases e <;> rfl
      | ok u3 =>
        cases t2 with
        | error e => cases e <;> rfl
        | ok u4 =>
          cases t3 with
          | error e => cases e <;> rfl
          | ok u5 =>
            cases w3 with
            | error e => cases e <;> rfl
            | ok u6 =>
              cases b1 with
              | error e => cases e <;> rfl
              | ok u7 =>
                cases w4 with
                | error e => cases e <;> rfl
                | ok u8 => rfl

/-- Opening the work-item card emits no events, never raises, and returns the
mirrored dictionary. -/
theorem opencard_eq (env : CompleteEnv) (mva : String) :
    open_pm_workitem_card env mva = (Except.ok (ocD env mva), []) := by
  show M.catchAll _ _ = _
  rcases hf : env.cardFind with e | u
  · simp [open_pm_workitem_card, ocD, cardOk, hf, M.catchAll, M.bind, M.liftE, M.ret]
  · rcases hc : env.cardClick with e | u <;>
      simp [open_pm_workitem_card, ocD, cardOk, hf, hc, M.catchAll, M.bind, M.liftE, M.ret]

/-- The mileage step's result is determined by the Next click; its trace is
that click's trace; it never raises. -/
theorem mileage_eq (env : MileageEnv) (mva : String) :
    complete_mileage_dialog env mva = (Except.ok (mileD env), clickTr env.nextClick) := by
  show M.catchAll _ _ = _
  rw [show (M.bind (click_element env.nextClick) (fun b =>
      if b then M.ret ([("status", "ok")] : Dict)
      else M.ret [("status", "failed"), ("reason", "next_btn")])) =
      (M.bind (Except.ok (clickB env.nextClick), clickTr env.nextClick) (fun b =>
      if b then M.ret ([("status", "ok")] : Dict)
      else M.ret [("status", "failed"), ("reason", "next_btn")])) from by rw [click_eq]]
  cases hb : clickB env.nextClick <;>
    simp [mileD, hb, M.catchAll, M.bind, M.ret]

/-- `select_opcode` returns the mirrored outcome and trace. -/
theorem opcode_eq (env : OpcodeEnv) (mva : String) (code : String) :
    select_opcode env mva code = (opR env code, opTr env code) := by
  rcases env with ⟨q, tiles⟩
  cases q with
  | some e => rfl
  | none =>
    simp only [select_opcode, opR, opTr]
    cases h : tiles.filter (fun t => t.label = code) with
    | nil => simp [h, M.bind, M.ret]
    | cons t rest =>
      rcases hs : t.scroll with e | u
      · simp [h, hs, M.bind, M.ret, M.liftE, M.emit]
      · rcases hc : t.click with e | u <;>
          simp [h, hs, hc, M.bind, M.ret, M.liftE, M.emit]

/-- `mark_complete_pm_workitem` returns the mirrored dictionary and trace and
never raises. -/
theorem mark_eq (env : CompleteEnv) (mva : String) :
    mark_complete_pm_workitem env mva = (Except.ok (markD env mva), markTr env) := by
  unfold mark_complete_pm_workitem markD markTr
  cases h1 : clickB env.markClick1 <;> cases h2 : clickB env.markClick2 <;>
    cases h3 : dlgOk env.dialog <;>
      simp [click_eq, dialog_eq, h1, h2, h3, dlgD, dget, M.bind, M.ret]

/-- `complete_pm_workitem` returns the mirrored dictionary and trace and
never raises. -/
theorem complete_eq (env : CompleteEnv) (mva : String) :
    complete_pm_workitem env mva = (Except.ok (cpD env mva), cpTr env) := by
  unfold complete_pm_workitem cpD cpTr
  cases h0 : cardOk env <;> cases h1 : clickB env.markClick1 <;>
    cases h2 : clickB env.markClick2 <;> cases h3 : dlgOk env.dialog <;>
      simp [opencard_eq, mark_eq, ocD, markD, markTr, h0, h1, h2, h3, dget,
            M.bind, M.ret, M.emit]

/-- `associate_existing_complaint` never raises: it returns the mirrored
dictionary with the mirrored trace. -/
theorem assoc_eq (env : AssocEnv) (mva : String) :
    associate_existing_complaint env mva = (Except.ok (assocR env mva), assocTr env) := by
  unfold associate_existing_complaint assocR assocTr
  rcases hq : env.tilesQuery with e | tiles
  · simp [find_pm_complaint_tiles, create_failure_result, hq,
          M.catchAll, M.bind, M.ret, M.emit, M.liftE]
  · cases tiles with
    | nil =>
      simp [find_pm_complaint_tiles, create_failure_result, hq, pmFilter,
            M.catchAll, M.bind, M.ret, M.emit, M.liftE]
    | cons t0 ts =>
      cases hpm : pmFilter (t0 :: ts) with
      | nil =>
        simp [find_pm_complaint_tiles, create_failure_result, hq, hpm,
              M.catchAll, M.bind, M.ret, M.emit, M.liftE]
      | cons t rest =>
        rcases hc : t.click with e | u
        · simp [find_pm_complaint_tiles, select_complaint_tile,
                create_failure_result, hq, hpm, hc,
                M.catchAll, M.bind, M.ret, M.emit, M.liftE]
        · cases hn : nextB env.next.finalScan env.next.polls with
          | error e =>
            simp [find_pm_complaint_tiles, select_complaint_tile,
                  execute_complaint_dialog_step, create_failure_result,
                  click_next_eq, hq, hpm, hc, hn,
                  M.catchAll, M.bind, M.ret, M.emit, M.liftE]
          | ok b =>
            cases b with
            | false =>
              simp [find_pm_complaint_tiles, select_complaint_tile,
                    execute_complaint_dialog_step, create_failure_result,
                    click_next_eq, hq, hpm, hc, hn,
                    M.catchAll, M.bind, M.ret, M.emit, M.liftE]
            | true =>
              cases hm : clickB env.mileage.nextClick with
              | false =>
                simp [find_pm_complaint_tiles, select_complaint_tile,
                      execute_complaint_dialog_step, execute_mileage_dialog_step,
                      create_failure_result, click_next_eq, mileage_eq, mileD, dget,
                      hq, hpm, hc, hn, hm,
                      M.catchAll, M.bind, M.ret, M.emit, M.liftE]
              | true =>
                cases ho : opR env.opcode ("PM Gas") with
                | error e =>
                  simp [find_pm_complaint_tiles, select_complaint_tile,
                        execute_complaint_dialog_step, execute_mileage_dialog_step,
                        execute_opcode_dialog_step, create_failure_result,
                        click_next_eq, mileage_eq, opcode_eq, mileD, dget,
                        hq, hpm, hc, hn, hm, ho,
                        M.catchAll, M.bind, M.ret, M.emit, M.liftE]
                | ok r =>
                  by_cases hs : dget r ("status") = some "ok" <;>
                    simp [find_pm_complaint_tiles, select_complaint_tile,
                          execute_complaint_dialog_step, execute_mileage_dialog_step,
                          execute_opcode_dialog_step, create_failure_result,
                          click_next_eq, mileage_eq, opcode_eq, mileD, dget,
                          hq, hpm, hc, hn, hm, ho, hs,
                          M.catchAll, M.bind, M.ret, M.emit, M.liftE]

/-- `finalize_workitem` returns the mirrored outcome and trace. -/
theorem finalize_eq (env : FinalizeEnv) (mva : String) :
    finalize_workitem env mva = (finR env mva, finTr env) := by
  unfold finalize_workitem finR finTr
  cases h1 : clickB env.createClick with
  | false => simp [click_eq, h1, M.catchAll, M.bind, M.ret, M.emit]
  | true =>
    rcases hq : env.tilesQuery with e | tiles
    · cases hv : navB env.nav 0 5 with
      | error e2 =>
        simp [click_eq, nav_eq, h1, hq, hv, M.catchAll, M.bind, M.ret, M.emit, M.liftE]
      | ok b =>
        simp [click_eq, nav_eq, h1, hq, hv, M.catchAll, M.bind, M.ret, M.emit, M.liftE]
    · cases tiles with
      | nil => simp [click_eq, h1, hq, M.catchAll, M.bind, M.ret, M.emit, M.liftE]
      | cons t ts =>
        by_cases hs : dget (cpD env.comp mva) ("status") = some "ok" <;>
          simp [click_eq, complete_eq, h1, hq, hs,
                M.catchAll, M.bind, M.ret, M.emit, M.liftE]

/-- The no-open-item branch of the controller equals its mirror. -/
theorem handle_core_eq (env : HandleEnv) (mva : String) :
    (M.bind (click_element env.addClick) (fun b =>
        if b then
          M.bind (associate_existing_complaint env.assoc mva) (fun res =>
            if dget res ("status") = some "associated" then
              finalize_workitem env.fin mva
            else if dget res ("status") = some "skipped_no_complaint" then
              M.bind (navigate_back_to_home env.nav) (fun _ => M.ret res)
            else M.ret res)
        else M.ret [("status", "failed"), ("reason", "add_btn"), ("mva", mva)])) =
    (handleCore env mva, handleCoreTr env mva) := by
  unfold handleCore handleCoreTr
  cases hb : clickB env.addClick with
  | false => simp [click_eq, hb, M.bind, M.ret]
  | true =>
    by_cases ha : dget (assocR env.assoc mva) ("status") = some "associated"
    · simp [click_eq, assoc_eq, finalize_eq, hb, ha, M.bind, M.ret]
    · by_cases hs : dget (assocR env.assoc mva) ("status") = some "skipped_no_complaint"
      · cases hv : navB env.nav 0 5 with
        | error e =>
          simp [click_eq, assoc_eq, nav_eq, hb, ha, hs, hv, M.bind, M.ret]
        | ok b =>
          simp [click_eq, assoc_eq, nav_eq, hb, ha, hs, hv, M.bind, M.ret]
      · simp [click_eq, assoc_eq, hb, ha, hs, M.bind, M.ret]

/-- `handle_pm_workitems` returns the mirrored outcome and trace. -/
theorem handle_eq (env : HandleEnv) (mva : String) :
    handle_pm_workitems env mva = (handleR env mva, handleTr env mva) := by
  unfold handle_pm_workitems handleR handleTr get_work_items
  rcases hw : env.workItems with e | items
  · cases e with
    | noSuchElement =>
      simpa [hw, M.catchOnly, M.bind, M.ret, M.liftE] using handle_core_eq env mva
    | timeoutExc => simp [hw, M.catchOnly, M.bind, M.ret, M.liftE]
    | staleElement => simp [hw, M.catchOnly, M.bind, M.ret, M.liftE]
    | assertErr => simp [hw, M.catchOnly, M.bind, M.ret, M.liftE]
    | otherErr => simp [hw, M.catchOnly, M.bind, M.ret, M.liftE]
  · cases items with
    | nil =>
      simpa [hw, M.catchOnly, M.bind, M.ret, M.liftE] using handle_core_eq env mva
    | cons t ts =>
      simp [hw, complete_eq, M.catchOnly, M.bind, M.ret, M.liftE]

/-- A click's trace holds only locate and click attempts. -/
theorem clickTr_events (env : ClickEnv) :
    ∀ ev ∈ clickTr env, ev = Event.locateAttempt ∨ ev = Event.clickAttempt := by
  unfold clickTr
  repeat' split
  all_goals decide

theorem create_not_in_clickTr (env : ClickEnv) :
    Event.createComplaintCalled ∉ clickTr env := by
  unfold clickTr
  repeat' split
  all_goals decide

theorem resolver_not_in_clickTr (env : ClickEnv) :
    Event.resolverCalled ∉ clickTr env := by
  unfold clickTr
  repeat' split
  all_goals decide

theorem create_not_in_opTr (env : OpcodeEnv) (code : String) :
    Event.createComplaintCalled ∉ opTr env code := by
  unfold opTr
  repeat' split
  all_goals simp

/-- The resolver never emits the create-new-complaint marker: only
`create_new_complaint` does. -/
theorem assocTr_noCreate (env : AssocEnv) :
    Event.createComplaintCalled ∉ assocTr env := by
  unfold assocTr
  repeat' split
  all_goals
    simp [create_not_in_clickTr, create_not_in_opTr, List.mem_cons, List.mem_append]

/-- The completion procedure never emits the resolver marker. -/
theorem resolver_not_in_cpTr (env : CompleteEnv) :
    Event.resolverCalled ∉ cpTr env := by
  unfold cpTr markTr
  repeat' split
  all_goals
    simp [resolver_not_in_clickTr, List.mem_cons, List.mem_append]

/-- Every resolver result dictionary carries a status and the vehicle id. -/
theorem assocR_fields (env : AssocEnv) (mva : String) :
    (∃ s, dget (assocR env mva) ("status") = some s) ∧
      dget (assocR env mva) ("mva") = some mva := by
  unfold assocR
  repeat' split
  all_goals simp [dget]

/-- Every completion result dictionary carries a status and the vehicle id. -/
theorem cpD_fields (env : CompleteEnv) (mva : String) :
    (∃ s, dget (cpD env mva) ("status") = some s) ∧
      dget (cpD env mva) ("mva") = some mva := by
  unfold cpD
  repeat' split
  all_goals simp [dget]

/-- Every returned finalize dictionary carries a status and the vehicle id. -/
theorem finR_fields (env : FinalizeEnv) (mva : String) (r : Dict)
    (h : finR env mva = Except.ok r) :
    (∃ s, dget r ("status") = some s) ∧ dget r ("mva") = some mva := by
  unfold finR at h
  repeat' split at h
  all_goals first
    | (simp only [Except.ok.injEq] at h; subst h; simp [dget])
    | (cases h)

/-- Every returned controller dictionary carries a status and the vehicle id. -/
theorem handleR_fields (env : HandleEnv) (mva : String) (r : Dict)
    (h : handleR env mva = Except.ok r) :
    (∃ s, dget r ("status") = some s) ∧ dget r ("mva") = some mva := by
  unfold handleR handleCore at h
  repeat' split at h
  all_goals first
    | (exact finR_fields env.fin mva r h)
    | (simp only [Except.ok.injEq] at h; subst h;
        first
          | exact assocR_fields env.assoc mva
          | exact cpD_fields env.comp mva
          | simp [dget])
    | (cases h)

theorem isStep_next : isStepEvt Event.stepNext = true := rfl
theorem isStep_mileage : isStepEvt Event.stepMileage = true := rfl
theorem isStep_opcode : isStepEvt Event.stepOpcode = true := rfl

/-- A click's trace holds no dialog-step markers. -/
theorem clickTr_filter_step (env : ClickEnv) :
    (clickTr env).filter isStepEvt = [] := by
  unfold clickTr
  repeat' split
  all_goals decide

/-- Every opcode-trace event is an opcode-tile click. -/
theorem opTr_events (env : OpcodeEnv) (code : String) :
    ∀ ev ∈ opTr env code, ∃ n, ev = Event.opTileClicked n := by
  unfold opTr
  repeat' split
  all_goals simp

/-- The opcode trace holds no dialog-step markers. -/
theorem opTr_filter_step (env : OpcodeEnv) (code : String) :
    (opTr env code).filter isStepEvt = [] := by
  unfold opTr
  repeat' split
  all_goals simp [List.filter_cons, isStepEvt]

/-- The resolver runs its dialog steps in order and each at most once: its
step markers form a prefix of Next, Mileage, Opcode. -/
theorem assocTr_steps (env : AssocEnv) :
    (assocTr env).filter isStepEvt ∈
      ([[], [Event.stepNext], [Event.stepNext, Event.stepMileage],
        [Event.stepNext, Event.stepMileage, Event.stepOpcode]] : List (List Event)) := by
  unfold assocTr
  repeat' split
  all_goals
    simp [List.filter_cons, List.filter_append, clickTr_filter_step, opTr_filter_step,
          isStep_next, isStep_mileage, isStep_opcode, isStepEvt]

theorem tile_not_in_clickTr (c : ClickEnv) (n : Nat) :
    Event.tileClicked n ∉ clickTr c := by
  unfold clickTr
  repeat' split
  all_goals simp

theorem tile_not_in_opTr (env : OpcodeEnv) (code : String) (n : Nat) :
    Event.tileClicked n ∉ opTr env code := by
  unfold opTr
  repeat' split
  all_goals simp

/-- Any complaint-tile click recorded by the resolver is on the head of the
filtered PM-tile list. -/
theorem assocTr_tile_unique (env : AssocEnv) :
    ∀ n, Event.tileClicked n ∈ assocTr env →
      ∃ tiles t rest, env.tilesQuery = Except.ok tiles ∧
        pmFilter tiles = t :: rest ∧ n = t.id := by
  unfold assocTr
  repeat' split
  all_goals intro n hn
  all_goals
    simp only [List.mem_cons, List.mem_append, List.mem_singleton,
      List.not_mem_nil, or_false, false_or] at hn
  all_goals
    repeat'
      first
      | (exact absurd hn (tile_not_in_clickTr _ _))
      | (exact absurd hn (tile_not_in_opTr _ _ _))
      | (exact ⟨_, _, _, by assumption, by assumption, by simpa using hn⟩)
      | (rcases hn with hn | hn)
      | (cases hn)
/-- The resolver clicks no complaint tile other than the first PM tile. -/
theorem assocTr_tile_clicks (env : AssocEnv) (tiles : List Tile) (t : Tile)
    (rest : List Tile) (hq : env.tilesQuery = Except.ok tiles)
    (hpm : pmFilter tiles = t :: rest) :
    ∀ n, Event.tileClicked n ∈ assocTr env → n = t.id := by
  intro n hn
  obtain ⟨tiles2, t2, rest2, hq2, hpm2, rfl⟩ := assocTr_tile_unique env n hn
  rw [hq] at hq2
  injection hq2 with h2
  subst h2
  rw [hpm] at hpm2
  injection hpm2 with h3 h4
  subst h3
  rfl

/- ---------------- claim theorems ---------------- -/

/-- Claim C6: `send_text` returns true iff the element was located, typing
succeeded, and the post-write read-back equals the input exactly; success
implies the field reads back the input; a locate timeout or a read-back
mismatch yields false. -/
theorem c6_send_text_roundtrip (env : SendEnv) (text : String) (clear : Bool) :
    ((send_text env text clear).1 = Except.ok true ↔
      (env.locate = Except.ok () ∧ (clear = true → env.clearOp = Except.ok ()) ∧
        env.sendKeys = Except.ok () ∧ env.readBack = Except.ok (some text)))
    ∧ ((send_text env text clear).1 = Except.ok true → readOf env = some text)
    ∧ (env.locate = Except.error Exc.timeoutExc →
        (send_text env text clear).1 = Except.ok false)
    ∧ (∀ v, env.locate = Except.ok () → env.readBack = Except.ok v →
        v ≠ some text → (send_text env text clear).1 = Except.ok false) := by
  rcases env with ⟨lo, cl, se, rb⟩
  rcases lo with e | ⟨⟩
  · cases e <;>
      simp [send_text, readOf, M.catchOnly, M.catchAll, M.bind, M.liftE, M.ret]
  · cases clear
    · rcases se with e2 | ⟨⟩
      · simp [send_text, readOf, M.catchOnly, M.catchAll, M.bind, M.liftE, M.ret]
      · rcases rb with e3 | v
        · simp [send_text, readOf, M.catchOnly, M.catchAll, M.bind, M.liftE, M.ret]
        · by_cases hv : v = some text <;>
            simp [send_text, readOf, hv, M.catchOnly, M.catchAll, M.bind, M.liftE, M.ret]
    · rcases cl with e1 | ⟨⟩
      · simp [send_text, readOf, M.catchOnly, M.catchAll, M.bind, M.liftE, M.ret]
      · rcases se with e2 | ⟨⟩
        · simp [send_text, readOf, M.catchOnly, M.catchAll, M.bind, M.liftE, M.ret]
        · rcases rb with e3 | v
          · simp [send_text, readOf, M.catchOnly, M.catchAll, M.bind, M.liftE, M.ret]
          · by_cases hv : v = some text <;>
              simp [send_text, readOf, hv, M.catchOnly, M.catchAll, M.bind, M.liftE, M.ret]

/-- Claim C6 witness at a concrete field. -/
theorem c6_witness :
    (send_text sendEnvW ("A1") true).1 = Except.ok true ∧ readOf sendEnvW = some "A1" := by
  have h := c6_send_text_roundtrip sendEnvW ("A1") true
  refine ⟨h.1.mpr ⟨rfl, fun _ => rfl, rfl, rfl⟩, ?_⟩
  exact h.2.1 (h.1.mpr ⟨rfl, fun _ => rfl, rfl, rfl⟩)

/-- Claim C7: `click_element` never raises; it returns true exactly when the
first locate-and-click succeeded or a stale first click was followed by one
successful retry; the click is attempted at most twice, twice only on a stale
first click; true is returned only when a click was performed. -/
theorem c7_click_element (env : ClickEnv) :
    (∃ b, (click_element env).1 = Except.ok b)
    ∧ ((click_element env).1 = Except.ok true ↔
        (env.wait1 = Except.ok () ∧
          (env.click1 = Except.ok () ∨
            (env.click1 = Except.error Exc.staleElement ∧ env.wait2 = Except.ok () ∧
              env.click2 = Except.ok ()))))
    ∧ ((click_element env).2.count Event.clickAttempt =
        (if env.wait1 = Except.ok () then 1 else 0) +
          (if env.wait1 = Except.ok () ∧ env.click1 = Except.error Exc.staleElement ∧
              env.wait2 = Except.ok () then 1 else 0))
    ∧ ((click_element env).2.count Event.clickAttempt = 2 →
        env.click1 = Except.error Exc.staleElement)
    ∧ ((click_element env).1 = Except.ok true →
        Event.clickAttempt ∈ (click_element env).2) := by
  rcases env with ⟨w1, c1, w2, c2⟩
  rcases w1 with e1 | ⟨⟩
  · cases e1 <;>
      simp [click_eq, clickB, clickTr, List.count_cons, List.count_nil]
  · rcases c1 with e2 | ⟨⟩
    · cases e2 with
      | staleElement =>
        rcases w2 with e3 | ⟨⟩
        · simp [click_eq, clickB, clickTr, List.count_cons, List.count_nil]
        · rcases c2 with e4 | ⟨⟩ <;>
            simp [click_eq, clickB, clickTr, List.count_cons, List.count_nil]
      | noSuchElement => simp [click_eq, clickB, clickTr, List.count_cons, List.count_nil]
      | timeoutExc => simp [click_eq, clickB, clickTr, List.count_cons, List.count_nil]
      | assertErr => simp [click_eq, clickB, clickTr, List.count_cons, List.count_nil]
      | otherErr => simp [click_eq, clickB, clickTr, List.count_cons, List.count_nil]
    · simp [click_eq, clickB, clickTr, List.count_cons, List.count_nil]

/-- Claim C7 witness: a successful click performs a click attempt. -/
theorem c7_witness : Event.clickAttempt ∈ (click_element okClick).2 :=
  (c7_click_element okClick).2.2.2.2 (by decide)

/-- Claim C8: with no matching tile `select_opcode` reports
opcode_not_found without clicking; otherwise it scrolls and clicks exactly
the first exactly-matching tile and reports ok; later tiles are never
clicked. -/
theorem c8_select_opcode (env : OpcodeEnv) (mva : String) (code : String)
    (hq : env.queryExc = none) :
    (env.domTiles.filter (fun t2 => t2.label = code) = [] →
      select_opcode env mva code =
        (Except.ok [("status", "failed"), ("reason", "opcode_not_found")], []))
    ∧ (∀ t rest, env.domTiles.filter (fun t2 => t2.label = code) = t :: rest →
        (∀ n, Event.opTileClicked n ∈ (select_opcode env mva code).2 → n = t.id)
        ∧ (t.scroll = Except.ok () → t.click = Except.ok () →
            select_opcode env mva code =
              (Except.ok [("status", "ok")], [Event.opTileClicked t.id]))) := by
  constructor
  · intro hf
    rw [opcode_eq]
    simp [opR, opTr, hq, hf]
  · intro t rest hf
    constructor
    · intro n hn
      rw [opcode_eq] at hn
      simp only [opTr, hq, hf] at hn
      rcases hs : t.scroll with e | u <;> rw [hs] at hn <;> simp at hn
      exact hn
    · intro hs hc
      rw [opcode_eq]
      simp [opR, opTr, hq, hf, hs, hc]

/-- Claim C8 witness at a one-tile opcode dialog. -/
theorem c8_witness :
    select_opcode okOpcodeEnv ("A1") ("PM Gas") =
      (Except.ok [("status", "ok")], [Event.opTileClicked 1]) := by
  have h := (c8_select_opcode okOpcodeEnv ("A1") ("PM Gas") rfl).2
    ⟨1, "PM Gas", Except.ok (), Except.ok ()⟩ [] (by decide)
  exact h.2 rfl rfl

/-- Claim C9 counterexample: a whitespace-only line is not filtered out; it
yields an empty token. -/
theorem c9_counterexample :
    load_mvas [["  "]] = [""] ∧ "" ∈ load_mvas [["  "]] := by decide

/-- Claim C9 (amended): `load_mvas` skips blank lines (empty rows) and lines
starting with the hash mark, and yields one whitespace-stripped token per
remaining line; whitespace-only lines are not filtered and give empty
tokens. -/
theorem c9_loader (rows : List (List String)) (f : String) (rest : List String) :
    load_mvas ([] :: rows) = load_mvas rows
    ∧ (pyStartsHash f = true → load_mvas ((f :: rest) :: rows) = load_mvas rows)
    ∧ (pyStartsHash f = false →
        load_mvas ((f :: rest) :: rows) = pyStrip f :: load_mvas rows) := by
  refine ⟨rfl, fun h => ?_, fun h => ?_⟩ <;> simp [load_mvas, h]

/-- Claim C9 witness on a small input. -/
theorem c9_witness : load_mvas [[" A1 "]] = ["A1"] := by
  have h := (c9_loader [] (" A1 ") []).2.2 (by decide)
  exact h.trans (by decide)

/-- Claim C10: every dictionary returned by `handle_pm_workitems` carries a
status key and an mva key holding the vehicle identifier it was invoked
with. -/
theorem c10_results_tagged (env : HandleEnv) (mva : String) (r : Dict)
    (h : (handle_pm_workitems env mva).1 = Except.ok r) :
    (∃ s, dget r ("status") = some s) ∧ dget r ("mva") = some mva := by
  rw [handle_eq] at h
  exact handleR_fields env mva r h

/-- Claim C10 witness on the zero-tile controller run. -/
theorem c10_witness :
    dget [("status", "skipped_no_complaint"), ("mva", "A1")] ("mva") = some "A1" :=
  (c10_results_tagged envNoTiles ("A1")
    [("status", "skipped_no_complaint"), ("mva", "A1")] (by decide)).2

/-- Claim C1 counterexample: with zero open PM work items and zero PM
complaint tiles (and every performed step succeeding), the controller
returns skipped_no_complaint — not closed — and never invokes the
create-new-complaint sub-flow. -/
theorem c1_counterexample :
    (handle_pm_workitems envNoTiles ("A1")).1 =
      Except.ok [("status", "skipped_no_complaint"), ("mva", "A1")]
    ∧ dget [("status", "skipped_no_complaint"), ("mva", "A1")] ("status") ≠ some "closed"
    ∧ Event.createComplaintCalled ∉ (handle_pm_workitems envNoTiles ("A1")).2 :=
  ⟨by decide, by decide, by decide⟩

/-- Claim C1 (amended): for a vehicle with zero open PM work items and zero
PM complaint tiles, the controller clicks Add Work Item, the resolver
reports skipped_no_complaint, the controller navigates back home and
returns status=skipped_no_complaint; the create-new-complaint sub-flow
(which marks its invocation) is never invoked and no closed status arises. -/
theorem c1_no_tiles_skips (env : HandleEnv) (mva : String) (ts : List Tile)
    (hw : env.workItems = Except.ok [])
    (hadd : (click_element env.addClick).1 = Except.ok true)
    (hq : env.assoc.tilesQuery = Except.ok ts)
    (hpm : pmFilter ts = [])
    (hnav : ∃ b, (navigate_back_to_home env.nav).1 = Except.ok b) :
    (handle_pm_workitems env mva).1 =
      Except.ok [("status", "skipped_no_complaint"), ("mva", mva)]
    ∧ Event.createComplaintCalled ∉ (handle_pm_workitems env mva).2
    ∧ Event.navHomeCalled ∈ (handle_pm_workitems env mva).2
    ∧ (∀ c1 c2 cy cp cs m2,
        Event.createComplaintCalled ∈ (create_new_complaint c1 c2 cy cp cs m2).2) := by
  have hadd2 : clickB env.addClick = true := by
    rw [click_eq] at hadd
    simpa using hadd
  have hnav2 : ∃ b, navB env.nav 0 5 = Except.ok b := by
    obtain ⟨b, hb⟩ := hnav
    rw [nav_eq] at hb
    exact ⟨b, by simpa using hb⟩
  have hassoc : assocR env.assoc mva =
      [("status", "skipped_no_complaint"), ("mva", mva)] := by
    unfold assocR
    rw [hq]
    cases ts with
    | nil => simp
    | cons t0 ts2 => simp [hpm]
  obtain ⟨b, hb⟩ := hnav2
  have hR : handleR env mva =
      Except.ok [("status", "skipped_no_complaint"), ("mva", mva)] := by
    unfold handleR handleCore
    rw [hw]
    simp [hadd2, hassoc, hb, dget]
  have hTr : handleTr env mva =
      clickTr env.addClick ++ (assocTr env.assoc ++ [Event.navHomeCalled]) := by
    unfold handleTr handleCoreTr
    rw [hw]
    simp [hadd2, hassoc, dget]
  rw [handle_eq]
  refine ⟨hR, ?_, ?_, ?_⟩
  · show Event.createComplaintCalled ∉ handleTr env mva
    rw [hTr]
    simp [List.mem_append, create_not_in_clickTr, assocTr_noCreate]
  · show Event.navHomeCalled ∈ handleTr env mva
    rw [hTr]
    simp
  · intro c1 c2 cy cp cs m2
    show Event.createComplaintCalled ∈ (create_new_complaint c1 c2 cy cp cs m2).2
    simp [create_new_complaint, M.bind, M.emit, M.catchAll]

/-- Claim C1 witness: the amended behaviour at a concrete environment. -/
theorem c1_witness : Event.navHomeCalled ∈ (handle_pm_workitems envNoTiles ("A1")).2 :=
  (c1_no_tiles_skips envNoTiles ("A1") [] rfl (by decide) rfl rfl
    ⟨true, by decide⟩).2.2.1

/-- Claim C2: with at least one open PM work item the controller is exactly
the completion procedure on its environment — the complaint resolver (which
marks its invocation) is never invoked. -/
theorem c2_open_item_skips_resolver (env : HandleEnv) (mva : String) (t : Tile)
    (ts : List Tile) (hw : env.workItems = Except.ok (t :: ts)) :
    handle_pm_workitems env mva = complete_pm_workitem env.comp mva
    ∧ (∀ ev ∈ (handle_pm_workitems env mva).2, ev ≠ Event.resolverCalled)
    ∧ Event.completeCalled ∈ (handle_pm_workitems env mva).2
    ∧ (∀ aenv m2, Event.resolverCalled ∈ (associate_existing_complaint aenv m2).2) := by
  have h1 : handle_pm_workitems env mva = (Except.ok (cpD env.comp mva), cpTr env.comp) := by
    rw [handle_eq]
    unfold handleR handleTr
    rw [hw]
    simp
  refine ⟨?_, ?_, ?_, ?_⟩
  · rw [h1, complete_eq]
  · intro ev hev heq
    rw [h1] at hev
    subst heq
    exact resolver_not_in_cpTr env.comp hev
  · rw [h1]
    simp [cpTr]
  · intro aenv m2
    rw [assoc_eq]
    simp [assocTr]

/-- Claim C2 witness at a concrete one-open-item environment. -/
theorem c2_witness :
    handle_pm_workitems envOpenItem ("A2") = complete_pm_workitem envOpenItem.comp ("A2") :=
  (c2_open_item_skips_resolver envOpenItem ("A2") okTile [] rfl).1

/-- Claim C3 counterexample: a WebDriver exception raised by the work-item
query escapes `handle_pm_workitems` instead of being converted into a
failed result. -/
theorem c3_counterexample :
    (handle_pm_workitems envQueryRaises ("A1")).1 = Except.error Exc.otherErr := by
  decide

theorem finR_ok (env : FinalizeEnv) (mva : String)
    (hn : ∃ b, navB env.nav 0 5 = Except.ok b) :
    ∃ r, finR env mva = Except.ok r := by
  obtain ⟨b, hb⟩ := hn
  unfold finR
  repeat' split
  all_goals first
    | exact ⟨_, rfl⟩
    | simp_all

theorem handleCore_ok (env : HandleEnv) (mva : String)
    (hn1 : ∃ b, navB env.nav 0 5 = Except.ok b)
    (hn2 : ∃ b, navB env.fin.nav 0 5 = Except.ok b) :
    ∃ r, handleCore env mva = Except.ok r := by
  obtain ⟨b1, hb1⟩ := hn1
  unfold handleCore
  repeat' split
  all_goals first
    | exact ⟨_, rfl⟩
    | exact finR_ok env.fin mva hn2
    | simp_all

/-- Claim C3 (amended): the resolver and finalize layers catch every
exception, so the controller returns exactly one result whenever the
work-item query raises nothing beyond NoSuchElementException and the
navigate-back-home recoveries do not themselves raise; an arbitrary
exception from the work-item query, however, escapes (see the
counterexample). -/
theorem c3_no_escape_when_query_benign (env : HandleEnv) (mva : String)
    (hw : ∀ e, env.workItems = Except.error e → e = Exc.noSuchElement)
    (hn1 : ∃ b, (navigate_back_to_home env.nav).1 = Except.ok b)
    (hn2 : ∃ b, (navigate_back_to_home env.fin.nav).1 = Except.ok b) :
    ∃ r, (handle_pm_workitems env mva).1 = Except.ok r := by
  have hn1b : ∃ b, navB env.nav 0 5 = Except.ok b := by
    obtain ⟨b, hb⟩ := hn1
    rw [nav_eq] at hb
    exact ⟨b, by simpa using hb⟩
  have hn2b : ∃ b, navB env.fin.nav 0 5 = Except.ok b := by
    obtain ⟨b, hb⟩ := hn2
    rw [nav_eq] at hb
    exact ⟨b, by simpa using hb⟩
  rw [handle_eq]
  show ∃ r, handleR env mva = Except.ok r
  unfold handleR
  rcases hq : env.workItems with e | items
  · have he := hw e hq
    subst he
    simpa [hq] using handleCore_ok env mva hn1b hn2b
  · cases items with
    | nil => simpa [hq] using handleCore_ok env mva hn1b hn2b
    | cons t ts2 => exact ⟨cpD env.comp mva, by simp [hq]⟩

/-- Claim C3 witness at a concrete benign environment. -/
theorem c3_witness : ∃ r, (handle_pm_workitems envOpenItem ("A2")).1 = Except.ok r :=
  c3_no_escape_when_query_benign envOpenItem ("A2") (fun e h => nomatch h)
    ⟨true, by decide⟩ ⟨true, by decide⟩

/-- Claim C4: with at least one PM complaint tile present (and no step
raising), the resolver clicks exactly the first PM-matching tile, runs
dialog-Next, then Mileage, then Opcode in order, reports associated when
all steps succeed, and otherwise reports failed with exactly the first
failing step's tag from tile_click, complaint_next, mileage, opcode. -/
theorem c4_resolver_order (env : AssocEnv) (mva : String) (tiles : List Tile)
    (t : Tile) (rest : List Tile) (bnext : Bool) (rm rop : Dict)
    (hq : env.tilesQuery = Except.ok tiles)
    (hpm : pmFilter tiles = t :: rest)
    (hnext : (click_next_in_dialog env.next).1 = Except.ok bnext)
    (hmil : (complete_mileage_dialog env.mileage mva).1 = Except.ok rm)
    (hop : (select_opcode env.opcode mva ("PM Gas")).1 = Except.ok rop) :
    (associate_existing_complaint env mva).1 = Except.ok (
      if t.click ≠ Except.ok () then
        [("status", "failed"), ("reason", "tile_click"), ("mva", mva)]
      else if bnext = false then
        [("status", "failed"), ("reason", "complaint_next"), ("mva", mva)]
      else if dget rm ("status") ≠ some "ok" then
        [("status", "failed"), ("reason", "mileage"), ("mva", mva)]
      else if dget rop ("status") ≠ some "ok" then
        [("status", "failed"), ("reason", "opcode"), ("mva", mva)]
      else [("status", "associated"), ("mva", mva)])
    ∧ Event.tileClicked t.id ∈ (associate_existing_complaint env mva).2
    ∧ (∀ n, Event.tileClicked n ∈ (associate_existing_complaint env mva).2 → n = t.id)
    ∧ (associate_existing_complaint env mva).2.filter isStepEvt =
        (if t.click ≠ Except.ok () then []
         else if bnext = false then [Event.stepNext]
         else if dget rm ("status") ≠ some "ok" then [Event.stepNext, Event.stepMileage]
         else [Event.stepNext, Event.stepMileage, Event.stepOpcode]) := by
  have hnext2 : nextB env.next.finalScan env.next.polls = Except.ok bnext := by
    rw [click_next_eq] at hnext
    simpa using hnext
  have hmil2 : rm = mileD env.mileage := by
    rw [mileage_eq] at hmil
    have := hmil
    simpa using this.symm
  have hop2 : opR env.opcode ("PM Gas") = Except.ok rop := by
    rw [opcode_eq] at hop
    simpa using hop
  subst hmil2
  rw [assoc_eq]
  refine ⟨?_, ?_, ?_, ?_⟩
  · show Except.ok (assocR env mva) = _
    unfold assocR
    rw [hq]
    cases tiles with
    | nil => simp [pmFilter] at hpm
    | cons t0 ts2 =>
      rcases hc : t.click with e | ⟨⟩
      · simp [hpm, hc]
      · cases bnext with
        | false => simp [hpm, hc, hnext2]
        | true =>
          cases hm : clickB env.mileage.nextClick with
          | false => simp [hpm, hc, hnext2, hm, mileD, dget]
          | true =>
            by_cases hso : dget rop ("status") = some "ok" <;>
              simp [hpm, hc, hnext2, hm, hso, hop2, mileD, dget]
  · show Event.tileClicked t.id ∈ assocTr env
    unfold assocTr
    rw [hq]
    cases tiles with
    | nil => simp [pmFilter] at hpm
    | cons t0 ts2 => simp [hpm]
  · exact assocTr_tile_clicks env tiles t rest hq hpm
  · show (assocTr env).filter isStepEvt = _
    unfold assocTr
    rw [hq]
    cases tiles with
    | nil => simp [pmFilter] at hpm
    | cons t0 ts2 =>
      rcases hc : t.click with e | ⟨⟩
      · simp [hpm, hc, List.filter_cons, isStepEvt]
      · cases bnext with
        | false =>
          simp [hpm, hc, hnext2, List.filter_cons, List.filter_append, isStepEvt]
        | true =>
          cases hm : clickB env.mileage.nextClick with
          | false =>
            simp [hpm, hc, hnext2, hm, mileD, dget, List.filter_cons,
                  List.filter_append, clickTr_filter_step, opTr_filter_step, isStepEvt]
          | true =>
            simp [hpm, hc, hnext2, hm, mileD, dget, List.filter_cons,
                  List.filter_append, clickTr_filter_step, opTr_filter_step, isStepEvt]

/-- Claim C4 witness: the fully-successful associate path at a concrete
environment. -/
theorem c4_witness :
    Event.tileClicked 1 ∈ (associate_existing_complaint okAssoc ("A1")).2 :=
  (c4_resolver_order okAssoc ("A1") [okTile] okTile [] true
    [("status", "ok")] [("status", "ok")] rfl (by decide) (by decide) (by decide)
    (by decide)).2.1

/-- Claim C5 counterexample: an exception during the complaint-tile search is
converted to reason tile_search, not to reason exception. -/
theorem c5_counterexample :
    (associate_existing_complaint raiseAssoc ("M1")).1 =
      Except.ok [("status", "failed"), ("reason", "tile_search"), ("mva", "M1")]
    ∧ dget [("status", "failed"), ("reason", "tile_search"), ("mva", "M1")] ("reason") ≠
        some "exception" :=
  ⟨by decide, by decide⟩

/-- Claim C5 (amended): every exception inside the resolver is caught — it
always returns a result; exceptions during the tile search are converted to
reason tile_search, exceptions during the tile click to tile_click, and
exceptions escaping the dialog steps to reason exception at the top level;
no step is retried (the step markers form a prefix of Next, Mileage,
Opcode). -/
theorem c5_resolver_catches (env : AssocEnv) (mva : String) :
    (∃ r, (associate_existing_complaint env mva).1 = Except.ok r)
    ∧ (∀ e, env.tilesQuery = Except.error e →
        (associate_existing_complaint env mva).1 =
          Except.ok [("status", "failed"), ("reason", "tile_search"), ("mva", mva)])
    ∧ (∀ tiles t rest e, env.tilesQuery = Except.ok tiles →
        pmFilter tiles = t :: rest → t.click = Except.error e →
        (associate_existing_complaint env mva).1 =
          Except.ok [("status", "failed"), ("reason", "tile_click"), ("mva", mva)])
    ∧ (∀ tiles t rest e, env.tilesQuery = Except.ok tiles →
        pmFilter tiles = t :: rest → t.click = Except.ok () →
        (click_next_in_dialog env.next).1 = Except.error e →
        (associate_existing_complaint env mva).1 =
          Except.ok [("status", "failed"), ("reason", "exception"), ("mva", mva)])
    ∧ (associate_existing_complaint env mva).2.filter isStepEvt ∈
        ([[], [Event.stepNext], [Event.stepNext, Event.stepMileage],
          [Event.stepNext, Event.stepMileage, Event.stepOpcode]] : List (List Event))
    ∧ (∃ rm, (complete_mileage_dialog env.mileage mva).1 = Except.ok rm)
    ∧ (∀ tiles t rest rm e, env.tilesQuery = Except.ok tiles →
        pmFilter tiles = t :: rest → t.click = Except.ok () →
        (click_next_in_dialog env.next).1 = Except.ok true →
        (complete_mileage_dialog env.mileage mva).1 = Except.ok rm →
        dget rm ("status") = some "ok" →
        (select_opcode env.opcode mva ("PM Gas")).1 = Except.error e →
        (associate_existing_complaint env mva).1 =
          Except.ok [("status", "failed"), ("reason", "exception"), ("mva", mva)]) := by
  refine ⟨⟨assocR env mva, by rw [assoc_eq]⟩, ?_, ?_, ?_, ?_, ?_, ?_⟩
  · intro e he
    rw [assoc_eq]
    show Except.ok (assocR env mva) = _
    unfold assocR
    simp [he]
  · intro tiles t rest e hq hpm hc
    rw [assoc_eq]
    show Except.ok (assocR env mva) = _
    unfold assocR
    rw [hq]
    cases tiles with
    | nil => simp [pmFilter] at hpm
    | cons t0 ts2 => simp [hpm, hc]
  · intro tiles t rest e hq hpm hc hnext
    have hnext2 : nextB env.next.finalScan env.next.polls = Except.error e := by
      rw [click_next_eq] at hnext
      simpa using hnext
    rw [assoc_eq]
    show Except.ok (assocR env mva) = _
    unfold assocR
    rw [hq]
    cases tiles with
    | nil => simp [pmFilter] at hpm
    | cons t0 ts2 => simp [hpm, hc, hnext2]
  · rw [assoc_eq]
    exact assocTr_steps env
  · exact ⟨mileD env.mileage, by rw [mileage_eq]⟩
  · intro tiles t rest rm e hq hpm hc hnext hmil hmok hop
    have hnext2 : nextB env.next.finalScan env.next.polls = Except.ok true := by
      rw [click_next_eq] at hnext
      simpa using hnext
    have hmil2 : rm = mileD env.mileage := by
      rw [mileage_eq] at hmil
      have := hmil
      simpa using this.symm
    have hop2 : opR env.opcode ("PM Gas") = Except.error e := by
      rw [opcode_eq] at hop
      simpa using hop
    subst hmil2
    have hmb : clickB env.mileage.nextClick = true := by
      cases hb : clickB env.mileage.nextClick with
      | true => rfl
      | false => simp [mileD, hb, dget] at hmok
    rw [assoc_eq]
    show Except.ok (assocR env mva) = _
    unfold assocR
    rw [hq]
    cases tiles with
    | nil => simp [pmFilter] at hpm
    | cons t0 ts2 => simp [hpm, hc, hnext2, hmb, hop2]

/-- Claim C5 witness: the tile-search exception conversion at a concrete
environment. -/
theorem c5_witness :
    (associate_existing_complaint raiseAssoc ("M1")).1 =
      Except.ok [("status", "failed"), ("reason", "tile_search"), ("mva", "M1")] :=
  (c5_resolver_catches raiseAssoc ("M1")).2.1 Exc.otherErr rfl
